import Mathlib

/-!
Shallow embedding of the verifiable-credential wallet core
(package `wallet`, `vcwallet.go`): proof-option validation, the
linked-data proof engine (`Issue` / `Prove`), presentation assembly,
verification, and the profile create/update path.

Machine-level details that this repository delegates to external
collaborators (KMS signing, JSON-LD canonicalization, byte-level JSON
parsing) are abstracted: raw bytes are modelled as a `RawMessage` record
carrying the structures they would parse into, and proof validity of a
parsed document is an abstract boolean. Error strings follow the source
messages (quotes elided).
-/

namespace AriesWallet

/-! ## Constants (source: proof types and the BBS context URI) -/

def Ed25519Signature2018 : String := "Ed25519Signature2018"

def JSONWebSignature2020 : String := "JsonWebSignature2020"

def BbsBlsSignature2020 : String := "BbsBlsSignature2020"

def bbsContext : String := "https://w3id.org/security/bbs/v1"

/-- Base JSON-LD context that `verifiable.NewPresentation` places on a
fresh presentation. -/
def credentialsBaseContext : String := "https://www.w3.org/2018/credentials/v1"

/-! ## Signature representation and verification relationships -/

inductive SignatureRepresentation where
  | proofValue
  | jws
deriving DecidableEq, Repr

/-- Source: `defaultSignatureRepresentation = verifiable.SignatureJWS`. -/
def defaultSignatureRepresentation : SignatureRepresentation := .jws

inductive VerificationRelationship where
  | authentication
  | assertionMethod
deriving DecidableEq, Repr

/-- Source: the `supportedRelationships` map from relationship to its
proof-purpose string. -/
def supportedRelationships : VerificationRelationship → String
  | .authentication => "authentication"
  | .assertionMethod => "assertionMethod"

/-! ## DID documents -/

structure VerificationMethod where
  id : String
deriving DecidableEq, Repr

structure DIDDoc where
  id : String
  authentication : List VerificationMethod
  assertionMethod : List VerificationMethod
deriving DecidableEq, Repr

/-- `didDoc.VerificationMethods(relationship)[relationship]`: the
verification methods of the document for one relationship. -/
def DIDDoc.verificationMethods (d : DIDDoc) :
    VerificationRelationship → List VerificationMethod
  | .authentication => d.authentication
  | .assertionMethod => d.assertionMethod

/-! ## Proofs, credentials, presentations -/

structure Proof where
  proofType : String
  proofPurpose : String
  verificationMethod : String
  representation : SignatureRepresentation
deriving DecidableEq, Repr

structure Credential where
  context : List String
  id : String
  proofs : List Proof
  /-- Abstract result of checking the credential proof against the
  wallet resolver (the suite-level cryptography is external). -/
  proofValid : Bool
deriving DecidableEq, Repr

structure Presentation where
  context : List String
  holder : String
  credentials : List Credential
  proofs : List Proof
  /-- Abstract result of checking the presentation proof. -/
  proofValid : Bool
deriving DecidableEq, Repr

/-- A document to which a linked-data proof may be attached
(the `provable` interface of the source). -/
inductive Provable where
  | credential (c : Credential)
  | presentation (p : Presentation)
deriving DecidableEq, Repr

/-- Raw JSON bytes, modelled by the structures they would parse into.
`cred`/`pres`/`doc` are `none` when the bytes do not parse as that
shape. -/
structure RawMessage where
  cred : Option Credential := none
  pres : Option Presentation := none
  doc : Option DIDDoc := none
deriving DecidableEq, Repr

/-- `verifiable.ParseCredential`: parse failure when the bytes are not a
credential; with proof checking enabled, failure also when the proof
does not verify; `WithDisabledProofCheck` skips that check. -/
def parseCredential (raw : RawMessage) (disabledProofCheck : Bool) :
    Except String Credential :=
  match raw.cred with
  | none => .error "malformed credential"
  | some c =>
    if disabledProofCheck then .ok c
    else if c.proofValid then .ok c
    else .error "proof check failed"

/-- `verifiable.ParsePresentation` with the wallet public-key fetcher
(proof check always on in `verifyPresentation`). -/
def parsePresentation (raw : RawMessage) (disabledProofCheck : Bool) :
    Except String Presentation :=
  match raw.pres with
  | none => .error "malformed presentation"
  | some p =>
    if disabledProofCheck then .ok p
    else if p.proofValid then .ok p
    else .error "proof check failed"

/-- `json.Marshal` of a parsed credential back to bytes. -/
def marshalCredential (c : Credential) : RawMessage := { cred := some c }

/-! ## Proof options -/

/-- The `ProofOptions` record (`controller`, `verificationMethod`,
`proofType`, `proofRepresentation`, `created`, `domain`, `challenge`).
`proofRepresentation` is a nullable pointer in the source, hence
`Option`. -/
structure ProofOptions where
  controller : String := ""
  verificationMethod : String := ""
  proofType : String := ""
  proofRepresentation : Option SignatureRepresentation := none
  created : Option String := none
  domain : String := ""
  challenge : String := ""
deriving DecidableEq, Repr

/-- The loop body of `validateVerificationMethod`: walk the relationship
verification methods; an empty `opts.VerificationMethod` is filled with
the first method; a non-empty one must match some method id. -/
def vmLoop (opts : ProofOptions) (rel : VerificationRelationship) :
    List VerificationMethod → Except String ProofOptions
  | [] =>
    .error ("unable to find " ++ supportedRelationships rel ++
      " for given verification method")
  | vm :: rest =>
    if opts.verificationMethod = "" then
      .ok { opts with verificationMethod := vm.id }
    else if opts.verificationMethod = vm.id then .ok opts
    else vmLoop opts rel rest

/-- Source `validateVerificationMethod`. -/
def validateVerificationMethod (didDoc : DIDDoc) (opts : ProofOptions)
    (rel : VerificationRelationship) : Except String ProofOptions :=
  vmLoop opts rel (didDoc.verificationMethods rel)

/-- The two trailing default assignments of `validateProofOption`:
a nil `ProofRepresentation` becomes JWS, an empty `ProofType` becomes
Ed25519Signature2018. -/
def applyProofDefaults (o : ProofOptions) : ProofOptions :=
  let o1 :=
    match o.proofRepresentation with
    | none => { o with proofRepresentation := some defaultSignatureRepresentation }
    | some _ => o
  if o1.proofType = "" then { o1 with proofType := Ed25519Signature2018 } else o1

/-- Source `validateProofOption`: require a controller, resolve it,
validate the verification method, then default `proofRepresentation`
to JWS and `proofType` to Ed25519Signature2018. The resolver argument
stands for `c.walletVDR.Resolve`. -/
def validateProofOption (resolve : String → Except String DIDDoc)
    (opts : Option ProofOptions) (method : VerificationRelationship) :
    Except String ProofOptions :=
  match opts with
  | none => .error "invalid proof option, controller is required"
  | some o =>
    if o.controller = "" then
      .error "invalid proof option, controller is required"
    else
      match resolve o.controller with
      | .error e => .error e
      | .ok doc =>
        match validateVerificationMethod doc o method with
        | .error e => .error e
        | .ok o1 => .ok (applyProofDefaults o1)

/-! ## Content store and the content-backed VDR -/

inductive ContentType where
  | credential
  | didResolutionResponse
  | connection
  | metadata
  | collection
  | key
deriving DecidableEq, Repr

/-- Wallet content as an association list from (type, id) to blob. -/
abbrev ContentStore := List ((ContentType × String) × RawMessage)

def lookupContent (st : ContentStore) (ct : ContentType) (id : String) :
    Option RawMessage :=
  (st.find? (fun kv => kv.1 = (ct, id))).map (·.2)

/-- Modelled from the spec: `contentStore.Get` (§4.2), whose body is not
under src; returns the blob or NotFound. -/
def contentsGet (st : ContentStore) (ct : ContentType) (id : String) :
    Except String RawMessage :=
  match lookupContent st ct id with
  | some raw => .ok raw
  | none => .error "NotFound"

/-- Modelled from the spec: `contentStore.Save` (§4.2), whose body is not
under src; fails with Duplicate when the key exists, else appends. -/
def contentsSave (st : ContentStore) (ct : ContentType) (id : String)
    (blob : RawMessage) : Except String ContentStore :=
  match lookupContent st ct id with
  | some _ => .error "Duplicate"
  | none => .ok (st ++ [((ct, id), blob)])

/-- External collaborators of the wallet: the external VDR (a resolution
function) and the KMS signer acquisition (`newKMSSigner`), which fails
on an invalid auth token. -/
structure WalletCtx where
  extResolver : String → Except String DIDDoc
  kms : String → ProofOptions → Except String Unit

/-- Modelled from the spec: the content-backed VDR (§4.4), whose body is
not under src; a stored DIDResolutionResponse wins, else the external
resolver is consulted. -/
def walletVDRResolve (ctx : WalletCtx) (st : ContentStore) (didID : String) :
    Except String DIDDoc :=
  match lookupContent st .didResolutionResponse didID with
  | some raw =>
    match raw.doc with
    | some d => .ok d
    | none => .error "DIDNotResolvable"
  | none => ctx.extResolver didID

/-! ## Proof engine -/

/-- Source `addContext`: append the context to a credential when absent;
the type assertion to `*verifiable.Credential` fails for any other
document, so anything that is not a credential is left untouched. -/
def addContext (v : Provable) (context : String) : Provable :=
  match v with
  | .credential vc =>
    if vc.context.contains context then .credential vc
    else .credential { vc with context := vc.context ++ [context] }
  | .presentation p => .presentation p

/-- The `verifiable.LinkedDataProofContext` built in
`addLinkedDataProof`. -/
structure LinkedDataProofContext where
  verificationMethod : String
  signatureRepresentation : SignatureRepresentation
  signatureType : String
  created : Option String
  domain : String
  challenge : String
  purpose : String
deriving DecidableEq, Repr

def signingContext (opts : ProofOptions) (rel : VerificationRelationship) :
    LinkedDataProofContext :=
  { verificationMethod := opts.verificationMethod
    -- the source dereferences `*opts.ProofRepresentation`, non-nil after
    -- `validateProofOption`; `getD` keeps the function total
    signatureRepresentation := opts.proofRepresentation.getD defaultSignatureRepresentation
    signatureType := opts.proofType
    created := opts.created
    domain := opts.domain
    challenge := opts.challenge
    purpose := supportedRelationships rel }

def mkProof (ldpc : LinkedDataProofContext) : Proof :=
  { proofType := ldpc.signatureType
    proofPurpose := ldpc.purpose
    verificationMethod := ldpc.verificationMethod
    representation := ldpc.signatureRepresentation }

/-- Modelled from the spec: `p.AddLinkedDataProof(ctx)` of the external
verifiable package (§4.5 step 5) — construct the proof block and attach
it to the document; the suite cryptography is the KMS signing oracle. -/
def attachProof (p : Provable) (ldpc : LinkedDataProofContext) : Provable :=
  match p with
  | .credential c => .credential { c with proofs := c.proofs ++ [mkProof ldpc] }
  | .presentation pr => .presentation { pr with proofs := pr.proofs ++ [mkProof ldpc] }

/-- Source `addLinkedDataProof`: acquire the signer, dispatch on the
proof type (the BBS branch injects the BBS context first), attach the
proof; any other type yields the unsupported-signature-type error with
the document untouched. Returned as (error?, document after the call),
mirroring the in-place mutation of the source. -/
def addLinkedDataProof (ctx : WalletCtx) (authToken : String) (p : Provable)
    (opts : ProofOptions) (rel : VerificationRelationship) :
    Option String × Provable :=
  match ctx.kms authToken opts with
  | .error e => (some e, p)
  | .ok _ =>
    if opts.proofType = Ed25519Signature2018 then
      (none, attachProof p (signingContext opts rel))
    else if opts.proofType = JSONWebSignature2020 then
      (none, attachProof p (signingContext opts rel))
    else if opts.proofType = BbsBlsSignature2020 then
      (none, attachProof (addContext p bbsContext) (signingContext opts rel))
    else
      (some ("unsupported signature type " ++ opts.proofType), p)

/-! ## Issue -/

/-- Source `Wallet.Issue`: parse with proof check disabled, validate the
proof options for `assertionMethod`, attach the proof. The content
store is threaded through to expose that `Issue` never writes to it. -/
def Issue (ctx : WalletCtx) (st : ContentStore) (authToken : String)
    (credential : RawMessage) (options : Option ProofOptions) :
    Except String Credential × ContentStore :=
  match parseCredential credential true with
  | .error e => (.error ("failed to parse credential: " ++ e), st)
  | .ok vc =>
    match validateProofOption (walletVDRResolve ctx st) options .assertionMethod with
    | .error e => (.error ("failed to prepare proof: " ++ e), st)
    | .ok opts =>
      match addLinkedDataProof ctx authToken (.credential vc) opts .assertionMethod with
      | (some e, _) => (.error ("failed to issue credential: " ++ e), st)
      | (none, .credential vc1) => (.ok vc1, st)
      | (none, .presentation _) =>
        -- unreachable: addLinkedDataProof preserves the document shape
        (.error "failed to issue credential", st)

/-! ## Presentation assembly and Prove -/

/-- The `proveOpts` option bag: stored credential ids, raw credential
bytes, parsed credentials, and an optional existing presentation. -/
structure ProveOpts where
  storedCredentials : List String := []
  rawCredentials : List RawMessage := []
  credentials : List Credential := []
  presentation : Option Presentation := none

/-- First loop of `resolveOptionsToPresent`: fetch each stored id and
parse it with proof check disabled. -/
def resolveStored (st : ContentStore) : List String → Except String (List Credential)
  | [] => .ok []
  | id :: rest =>
    match contentsGet st .credential id with
    | .error e => .error e
    | .ok raw =>
      match parseCredential raw true with
      | .error e => .error e
      | .ok c =>
        match resolveStored st rest with
        | .error e => .error e
        | .ok cs => .ok (c :: cs)

/-- Second loop of `resolveOptionsToPresent`: parse each raw credential
with proof check disabled. -/
def resolveRaw : List RawMessage → Except String (List Credential)
  | [] => .ok []
  | raw :: rest =>
    match parseCredential raw true with
    | .error e => .error e
    | .ok c =>
      match resolveRaw rest with
      | .error e => .error e
      | .ok cs => .ok (c :: cs)

/-- Modelled from the spec: `presentation.AddCredentials` of the external
verifiable package — append the credentials to the presentation. -/
def addCredentials (p : Presentation) (cs : List Credential) : Presentation :=
  { p with credentials := p.credentials ++ cs }

/-- Modelled from the spec: `verifiable.NewPresentation(WithCredentials(…))`
— a fresh presentation holding the credentials, with the base context. -/
def newPresentation (cs : List Credential) : Except String Presentation :=
  .ok { context := [credentialsBaseContext]
        holder := ""
        credentials := cs
        proofs := []
        proofValid := true }

/-- Source `resolveOptionsToPresent`. -/
def resolveOptionsToPresent (st : ContentStore) (po : ProveOpts) :
    Except String Presentation :=
  match resolveStored st po.storedCredentials with
  | .error e => .error e
  | .ok cs1 =>
    match resolveRaw po.rawCredentials with
    | .error e => .error e
    | .ok cs2 =>
      let allCredentials := cs1 ++ cs2 ++ po.credentials
      match po.presentation with
      | some pr => .ok (addCredentials pr allCredentials)
      | none => newPresentation allCredentials

/-- Source `Wallet.Prove`: resolve the inputs into a presentation,
validate the proof options for `authentication`, set the holder to the
controller, attach the proof. -/
def Prove (ctx : WalletCtx) (st : ContentStore) (authToken : String)
    (proofOptions : Option ProofOptions) (credentials : ProveOpts) :
    Except String Presentation :=
  match resolveOptionsToPresent st credentials with
  | .error e => .error ("failed to resolve credentials from request: " ++ e)
  | .ok presentation =>
    match validateProofOption (walletVDRResolve ctx st) proofOptions .authentication with
    | .error e => .error ("failed to prepare proof: " ++ e)
    | .ok opts =>
      let withHolder := { presentation with holder := opts.controller }
      match addLinkedDataProof ctx authToken (.presentation withHolder) opts .authentication with
      | (some e, _) => .error ("failed to prove credentials: " ++ e)
      | (none, .presentation p1) => .ok p1
      | (none, .credential _) =>
        -- unreachable: addLinkedDataProof preserves the document shape
        .error "failed to prove credentials"

/-! ## Verification -/

/-- Source `Wallet.verifyCredential`: parse with the key fetcher (proof
check on); a failure becomes (false, detail). -/
def verifyCredential (raw : RawMessage) : Bool × Option String :=
  match parseCredential raw false with
  | .error e => (false, some ("credential verification failed: " ++ e))
  | .ok _ => (true, none)

/-- The per-credential loop of `verifyPresentation`: marshal each
embedded credential and verify it, stopping at the first failure. -/
def verifyPresLoop : List Credential → Bool × Option String
  | [] => (true, none)
  | c :: rest =>
    match verifyCredential (marshalCredential c) with
    | (_, some e) => (false, some ("presentation verification failed: " ++ e))
    | (_, none) => verifyPresLoop rest

/-- Source `Wallet.verifyPresentation`: parse and proof-check the
presentation itself, then verify each embedded credential in turn. -/
def verifyPresentation (raw : RawMessage) : Bool × Option String :=
  match parsePresentation raw false with
  | .error e => (false, some ("presentation verification failed: " ++ e))
  | .ok vp => verifyPresLoop vp.credentials

/-- The `verifyOpts` option bag; `none` models an empty byte slice. -/
structure VerifyOpts where
  credentialID : String := ""
  rawCredential : Option RawMessage := none
  rawPresentation : Option RawMessage := none
deriving DecidableEq, Repr

/-- Externally visible accesses that a `Verify` call can make. -/
inductive Effect where
  | storeGet (ct : ContentType) (id : String)
  | resolverFetch
deriving DecidableEq, Repr

/-- Source `Wallet.Verify`: dispatch on the populated input form; the
default branch fails with "invalid verify request". The effect list
records every content-store read and resolver use of the call. -/
def Verify (st : ContentStore) (options : VerifyOpts) :
    (Bool × Option String) × List Effect :=
  if options.credentialID ≠ "" then
    match contentsGet st .credential options.credentialID with
    | .error e =>
      ((false, some ("failed to get credential: " ++ e)),
        [.storeGet .credential options.credentialID])
    | .ok raw =>
      (verifyCredential raw,
        [.storeGet .credential options.credentialID, .resolverFetch])
  else
    match options.rawCredential with
    | some raw => (verifyCredential raw, [.resolverFetch])
    | none =>
      match options.rawPresentation with
      | some raw => (verifyPresentation raw, [.resolverFetch])
      | none => ((false, some "invalid verify request"), [])

/-! ## Profile store and create/update -/

/-- Modelled from the spec: the per-user wallet profile record (§3);
the KMS binding fields mirror the `kmsOpts` option bag. -/
structure WProfile where
  userID : String
  passphrase : String
  secretLockSvc : Bool
  keyServerURL : String
deriving DecidableEq, Repr

/-- The `kmsOpts` option bag of `createOrUpdate`. -/
structure KMSOpts where
  passphrase : String := ""
  secretLockSvc : Bool := false
  keyServerURL : String := ""
deriving DecidableEq, Repr

/-- Modelled from the spec: the binding is validated for completeness —
exactly one of the three variants is set (§4.1). -/
def validBinding (o : KMSOpts) : Bool :=
  ((if o.passphrase ≠ "" then 1 else 0) + (if o.secretLockSvc then 1 else 0)
    + (if o.keyServerURL ≠ "" then 1 else 0)) = 1

/-- Modelled from the spec: `createProfile` builds a fresh profile from
the KMS options after validating the binding (§4.1). -/
def createProfile (userID : String) (o : KMSOpts) : Except String WProfile :=
  if validBinding o then
    .ok { userID := userID
          passphrase := o.passphrase
          secretLockSvc := o.secretLockSvc
          keyServerURL := o.keyServerURL }
  else .error "invalid binding"

/-- Modelled from the spec: `profile.setKMSOptions` replaces the KMS
binding after validating it (§4.1). -/
def setKMSOptions (p : WProfile) (o : KMSOpts) : Except String WProfile :=
  if validBinding o then
    .ok { p with
          passphrase := o.passphrase
          secretLockSvc := o.secretLockSvc
          keyServerURL := o.keyServerURL }
  else .error "invalid binding"

/-- Profile storage keyed by userID. -/
abbrev ProfileStore := List (String × WProfile)

/-- Modelled from the spec: `profileStore.get` (§4.1) — NotFound when no
record exists. -/
def profileGet (st : ProfileStore) (userID : String) : Except String WProfile :=
  match List.lookup userID st with
  | some p => .ok p
  | none => .error "NotFound"

/-- Modelled from the spec: `profileStore.save` (§4.1) — creation fails
if a record exists; update fails if none exists. -/
def profileSave (st : ProfileStore) (p : WProfile) (update : Bool) :
    Except String ProfileStore :=
  if update then
    match List.lookup p.userID st with
    | some _ =>
      .ok (st.map (fun kv => if kv.1 = p.userID then (p.userID, p) else kv))
    | none => .error "NotFound"
  else
    match List.lookup p.userID st with
    | some _ => .error "AlreadyExists"
    | none => .ok (st ++ [(p.userID, p)])

/-- Source `createOrUpdate`. -/
def createOrUpdate (st : ProfileStore) (userID : String) (o : KMSOpts)
    (update : Bool) : Except String ProfileStore :=
  if update then
    match profileGet st userID with
    | .error e => .error ("failed to update wallet user profile: " ++ e)
    | .ok p =>
      match setKMSOptions p o with
      | .error e => .error ("failed to update wallet user profile KMS options: " ++ e)
      | .ok p1 =>
        match profileSave st p1 true with
        | .error e => .error ("failed to save VC wallet profile: " ++ e)
        | .ok st1 => .ok st1
  else
    match createProfile userID o with
    | .error e => .error ("failed to create new  wallet user profile: " ++ e)
    | .ok p =>
      match profileSave st p false with
      | .error e => .error ("failed to save VC wallet profile: " ++ e)
      | .ok st1 => .ok st1

/-- Source `CreateProfile`. -/
def CreateProfile (st : ProfileStore) (userID : String) (o : KMSOpts) :
    Except String ProfileStore :=
  createOrUpdate st userID o false

/-- Source `UpdateProfile`. -/
def UpdateProfile (st : ProfileStore) (userID : String) (o : KMSOpts) :
    Except String ProfileStore :=
  createOrUpdate st userID o true

/-! ## Concrete fixtures used by witnesses and counterexamples -/

def docEx : DIDDoc :=
  { id := "did:ex:alice"
    authentication := [{ id := "did:ex:alice#k1" }, { id := "did:ex:alice#k2" }]
    assertionMethod := [{ id := "did:ex:alice#k1" }] }

def resolveEx : String → Except String DIDDoc :=
  fun d => if d = "did:ex:alice" then .ok docEx else .error "DIDNotResolvable"

def walletCtxEx : WalletCtx :=
  { extResolver := resolveEx
    kms := fun _ _ => .ok () }

/-! ## Helper lemmas -/

theorem vmLoop_ok_preserves (rel : VerificationRelationship) :
    ∀ (l : List VerificationMethod) (o o1 : ProofOptions),
      vmLoop o rel l = .ok o1 →
      o1.controller = o.controller ∧ o1.proofType = o.proofType ∧
        o1.proofRepresentation = o.proofRepresentation := by
  intro l
  induction l with
  | nil => intro o o1 h; simp [vmLoop] at h
  | cons vm rest ih =>
    intro o o1 h
    simp only [vmLoop] at h
    by_cases h1 : o.verificationMethod = ""
    · rw [if_pos h1] at h
      cases h
      simp
    · rw [if_neg h1] at h
      by_cases h2 : o.verificationMethod = vm.id
      · rw [if_pos h2] at h
        cases h
        simp
      · rw [if_neg h2] at h
        exact ih o o1 h

theorem vmLoop_ok_of_mem (rel : VerificationRelationship) :
    ∀ (l : List VerificationMethod) (o : ProofOptions),
      o.verificationMethod ≠ "" →
      o.verificationMethod ∈ l.map VerificationMethod.id →
      vmLoop o rel l = .ok o := by
  intro l
  induction l with
  | nil => intro o h hm; simp at hm
  | cons vm rest ih =>
    intro o h hm
    simp only [vmLoop, if_neg h]
    by_cases h2 : o.verificationMethod = vm.id
    · rw [if_pos h2]
    · rw [if_neg h2]
      apply ih o h
      simp only [List.map_cons, List.mem_cons] at hm
      exact hm.resolve_left h2

theorem vmLoop_mem_of_ok (rel : VerificationRelationship) :
    ∀ (l : List VerificationMethod) (o o1 : ProofOptions),
      o.verificationMethod ≠ "" →
      vmLoop o rel l = .ok o1 →
      o.verificationMethod ∈ l.map VerificationMethod.id := by
  intro l
  induction l with
  | nil => intro o o1 h hm; simp [vmLoop] at hm
  | cons vm rest ih =>
    intro o o1 h hm
    simp only [vmLoop, if_neg h] at hm
    by_cases h2 : o.verificationMethod = vm.id
    · simp [h2]
    · rw [if_neg h2] at hm
      simp only [List.map_cons, List.mem_cons]
      exact Or.inr (ih o o1 h hm)

/-- `applyProofDefaults` only touches `proofType` and
`proofRepresentation`, and precisely as the source's two defaults. -/
theorem applyProofDefaults_fields (o : ProofOptions) :
    (applyProofDefaults o).controller = o.controller ∧
    (applyProofDefaults o).verificationMethod = o.verificationMethod ∧
    (applyProofDefaults o).proofType
      = (if o.proofType = "" then Ed25519Signature2018 else o.proofType) ∧
    (applyProofDefaults o).proofRepresentation
      = some (o.proofRepresentation.getD defaultSignatureRepresentation) := by
  cases hro : o.proofRepresentation with
  | none =>
    by_cases hpt : o.proofType = "" <;> simp [applyProofDefaults, hro, hpt]
  | some r =>
    by_cases hpt : o.proofType = "" <;> simp [applyProofDefaults, hro, hpt]

/-- Unfolding `validateProofOption` once the controller is present and
resolves: the result is the verification-method loop followed by the
defaults. -/
theorem validateProofOption_eval
    {resolve : String → Except String DIDDoc} {o : ProofOptions}
    {rel : VerificationRelationship} {doc : DIDDoc}
    (hc : ¬o.controller = "") (hr : resolve o.controller = .ok doc) :
    validateProofOption resolve (some o) rel =
      match vmLoop o rel (doc.verificationMethods rel) with
      | .error e => .error e
      | .ok o2 => .ok (applyProofDefaults o2) := by
  simp only [validateProofOption, if_neg hc, hr, validateVerificationMethod]

/-- On success, `validateProofOption` keeps the controller, defaults the
proof type to Ed25519Signature2018 exactly when it was empty, and
defaults the representation to JWS exactly when it was nil. -/
theorem validateProofOption_ok_fields
    {resolve : String → Except String DIDDoc} {o o1 : ProofOptions}
    {rel : VerificationRelationship}
    (h : validateProofOption resolve (some o) rel = .ok o1) :
    o1.controller = o.controller ∧
    o1.proofType = (if o.proofType = "" then Ed25519Signature2018 else o.proofType) ∧
    o1.proofRepresentation = some (o.proofRepresentation.getD defaultSignatureRepresentation) := by
  simp only [validateProofOption] at h
  split at h
  · cases h
  · split at h
    · cases h
    · split at h
      · cases h
      · rename_i hc doc hr o2 hv
        obtain ⟨hct, hpt, hrep⟩ :=
          vmLoop_ok_preserves rel _ o o2 (by simpa [validateVerificationMethod] using hv)
        injection h with h
        subst h
        obtain ⟨d1, d2, d3, d4⟩ := applyProofDefaults_fields o2
        refine ⟨by rw [d1, hct], ?_, by rw [d4, hrep]⟩
        rw [d3, hpt]

/-- Claim C1: for every Issue or Prove call (which validate proof options
with relationship `assertionMethod` resp. `authentication`), when the
controller resolves: a non-empty `verificationMethod` passes validation
iff it appears among the DID document's verification methods for the
relationship; an empty one is filled with the first method of the
relationship, and validation fails when the relationship has none. -/
theorem c1_verification_method_validation :
    ∀ (resolve : String → Except String DIDDoc) (o : ProofOptions)
      (rel : VerificationRelationship) (doc : DIDDoc),
      ¬o.controller = "" →
      resolve o.controller = .ok doc →
      ((¬o.verificationMethod = "" →
        ((∃ o1, validateProofOption resolve (some o) rel = .ok o1) ↔
          o.verificationMethod ∈ (doc.verificationMethods rel).map VerificationMethod.id)) ∧
       (o.verificationMethod = "" →
        (doc.verificationMethods rel = [] →
          ∃ e, validateProofOption resolve (some o) rel = .error e) ∧
        (∀ vm rest, doc.verificationMethods rel = vm :: rest →
          ∃ o1, validateProofOption resolve (some o) rel = .ok o1 ∧
            o1.verificationMethod = vm.id))) := by
  intro resolve o rel doc hc hr
  constructor
  · intro hvm
    rw [validateProofOption_eval hc hr]
    constructor
    · rintro ⟨o1, h⟩
      cases hl : vmLoop o rel (doc.verificationMethods rel) with
      | error e => rw [hl] at h; cases h
      | ok o2 => exact vmLoop_mem_of_ok rel _ o o2 hvm hl
    · intro hm
      rw [vmLoop_ok_of_mem rel _ o hvm hm]
      exact ⟨_, rfl⟩
  · intro hvm
    constructor
    · intro hnil
      rw [validateProofOption_eval hc hr, hnil]
      simp [vmLoop]
    · intro vm rest hl
      rw [validateProofOption_eval hc hr, hl]
      have hstep : vmLoop o rel (vm :: rest) = .ok { o with verificationMethod := vm.id } := by
        simp [vmLoop, hvm]
      rw [hstep]
      refine ⟨_, rfl, ?_⟩
      rw [(applyProofDefaults_fields { o with verificationMethod := vm.id }).2.1]

def c1OptsEx : ProofOptions :=
  { controller := "did:ex:alice", verificationMethod := "did:ex:alice#k1" }

/-- Witness for C1 at a concrete resolver, options and document. -/
theorem c1_witness :
    (∃ o1, validateProofOption resolveEx (some c1OptsEx) .assertionMethod = .ok o1) ↔
      "did:ex:alice#k1" ∈ (docEx.verificationMethods .assertionMethod).map VerificationMethod.id :=
  (c1_verification_method_validation resolveEx c1OptsEx .assertionMethod docEx
    (by decide) (by rfl)).1 (by decide)

/-- Claim C6: once proof options pass validation, an omitted proofType
has been set to Ed25519Signature2018 and an omitted proofRepresentation
to the JWS representation (the validated options are what Issue and
Prove hand to the signing step). -/
theorem c6_proof_option_defaults :
    ∀ (resolve : String → Except String DIDDoc) (o o1 : ProofOptions)
      (rel : VerificationRelationship),
      validateProofOption resolve (some o) rel = .ok o1 →
      (o.proofType = "" → o1.proofType = Ed25519Signature2018) ∧
      (o.proofRepresentation = none →
        o1.proofRepresentation = some SignatureRepresentation.jws) := by
  intro resolve o o1 rel h
  obtain ⟨-, hpt, hrep⟩ := validateProofOption_ok_fields h
  constructor
  · intro he; rw [hpt, if_pos he]
  · intro he; rw [hrep, he]; rfl

def c6OptsIn : ProofOptions := { controller := "did:ex:alice" }

def c6OptsOut : ProofOptions :=
  { controller := "did:ex:alice"
    verificationMethod := "did:ex:alice#k1"
    proofType := Ed25519Signature2018
    proofRepresentation := some SignatureRepresentation.jws }

/-- Witness for C6: a concrete validation run applies both defaults. -/
theorem c6_witness :
    c6OptsOut.proofType = Ed25519Signature2018 ∧
    c6OptsOut.proofRepresentation = some SignatureRepresentation.jws :=
  ⟨(c6_proof_option_defaults resolveEx c6OptsIn c6OptsOut .assertionMethod
      (by rfl)).1 (by rfl),
   (c6_proof_option_defaults resolveEx c6OptsIn c6OptsOut .assertionMethod
      (by rfl)).2 (by rfl)⟩

theorem getLast?_append_singleton {α : Type} (l : List α) (a : α) :
    (l ++ [a]).getLast? = some a := by simp

/-- `addLinkedDataProof` on a presentation either fails leaving the
document untouched, or succeeds appending exactly the proof built from
the signing context — the BBS context injection never reaches a
presentation because `addContext` only acts on credentials. -/
theorem addLinkedDataProof_presentation_cases (ctx : WalletCtx) (tok : String)
    (pr : Presentation) (opts : ProofOptions) (rel : VerificationRelationship) :
    (∃ e, addLinkedDataProof ctx tok (.presentation pr) opts rel =
      (some e, .presentation pr)) ∨
    addLinkedDataProof ctx tok (.presentation pr) opts rel =
      (none, .presentation
        { pr with proofs := pr.proofs ++ [mkProof (signingContext opts rel)] }) := by
  simp only [addLinkedDataProof]
  cases hk : ctx.kms tok opts with
  | error e => exact Or.inl ⟨e, rfl⟩
  | ok u =>
    by_cases h1 : opts.proofType = Ed25519Signature2018
    · exact Or.inr (by simp [h1, attachProof])
    by_cases h2 : opts.proofType = JSONWebSignature2020
    · exact Or.inr (by simp [h1, h2, attachProof])
    by_cases h3 : opts.proofType = BbsBlsSignature2020
    · exact Or.inr (by simp [h1, h2, h3, attachProof, addContext])
    · exact Or.inl ⟨"unsupported signature type " ++ opts.proofType,
        by simp [h1, h2, h3]⟩

/-- `addLinkedDataProof` on a credential either fails leaving the
document untouched, or appends exactly the proof built from the signing
context to the credential — after injecting the BBS context first when
(and only when) the proof type is BBS. -/
theorem addLinkedDataProof_credential_cases (ctx : WalletCtx) (tok : String)
    (c : Credential) (opts : ProofOptions) (rel : VerificationRelationship) :
    (∃ e, addLinkedDataProof ctx tok (.credential c) opts rel =
      (some e, .credential c)) ∨
    (∃ c1, addLinkedDataProof ctx tok (.credential c) opts rel =
        (none, .credential
          { c1 with proofs := c1.proofs ++ [mkProof (signingContext opts rel)] }) ∧
      c1.proofs = c.proofs ∧
      (opts.proofType = BbsBlsSignature2020 →
        Provable.credential c1 = addContext (.credential c) bbsContext) ∧
      (¬opts.proofType = BbsBlsSignature2020 → c1 = c)) := by
  simp only [addLinkedDataProof]
  cases hk : ctx.kms tok opts with
  | error e => exact Or.inl ⟨e, rfl⟩
  | ok u =>
    by_cases h1 : opts.proofType = Ed25519Signature2018
    · refine Or.inr ⟨c, by simp [h1, attachProof], rfl, ?_, fun _ => rfl⟩
      intro hb; rw [h1] at hb; exact absurd hb (by decide)
    by_cases h2 : opts.proofType = JSONWebSignature2020
    · refine Or.inr ⟨c, by simp [h1, h2, attachProof], rfl, ?_, fun _ => rfl⟩
      intro hb; rw [h2] at hb; exact absurd hb (by decide)
    by_cases h3 : opts.proofType = BbsBlsSignature2020
    · by_cases hmem : bbsContext ∈ c.context
      · refine Or.inr ⟨c,
          by rw [if_neg h1, if_neg h2, if_pos h3]; simp [attachProof, addContext, hmem],
          rfl, fun _ => by simp [addContext, hmem], fun hn => absurd h3 hn⟩
      · refine Or.inr ⟨{ c with context := c.context ++ [bbsContext] },
          by rw [if_neg h1, if_neg h2, if_pos h3]; simp [attachProof, addContext, hmem],
          rfl, fun _ => by simp [addContext, hmem], fun hn => absurd h3 hn⟩
    · exact Or.inl ⟨"unsupported signature type " ++ opts.proofType,
        by simp [h1, h2, h3]⟩

/-- A successful `Prove` run decomposes into: resolve the inputs, pass
validation, set the holder to the controller, append the authentication
proof. -/
theorem Prove_ok_characterization {ctx : WalletCtx} {st : ContentStore}
    {tok : String} {po : Option ProofOptions} {creds : ProveOpts} {p : Presentation}
    (h : Prove ctx st tok po creds = .ok p) :
    ∃ p0 o1, resolveOptionsToPresent st creds = .ok p0 ∧
      validateProofOption (walletVDRResolve ctx st) po .authentication = .ok o1 ∧
      p = { p0 with
            holder := o1.controller
            proofs := p0.proofs ++ [mkProof (signingContext o1 .authentication)] } := by
  simp only [Prove] at h
  split at h
  · cases h
  · rename_i p0 hres
    split at h
    · cases h
    · rename_i o1 hval
      rcases addLinkedDataProof_presentation_cases ctx tok
          { p0 with holder := o1.controller } o1 .authentication with ⟨e, hc⟩ | hc
      · rw [hc] at h; cases h
      · rw [hc] at h
        injection h with h
        exact ⟨p0, o1, hres, hval, h.symm⟩

/-- A successful `Issue` run decomposes into: parse the credential, pass
validation, inject the BBS context exactly for BBS proof types, append
the assertionMethod proof. -/
theorem Issue_ok_characterization {ctx : WalletCtx} {st : ContentStore}
    {tok : String} {raw : RawMessage} {po : Option ProofOptions} {vc1 : Credential}
    (h : (Issue ctx st tok raw po).1 = .ok vc1) :
    ∃ c o1 c1, parseCredential raw true = .ok c ∧
      validateProofOption (walletVDRResolve ctx st) po .assertionMethod = .ok o1 ∧
      vc1 = { c1 with proofs := c1.proofs ++ [mkProof (signingContext o1 .assertionMethod)] } ∧
      c1.proofs = c.proofs ∧
      (o1.proofType = BbsBlsSignature2020 →
        Provable.credential c1 = addContext (.credential c) bbsContext) ∧
      (¬o1.proofType = BbsBlsSignature2020 → c1 = c) := by
  simp only [Issue] at h
  split at h
  · cases h
  · rename_i c hparse
    split at h
    · cases h
    · rename_i o1 hval
      rcases addLinkedDataProof_credential_cases ctx tok c o1 .assertionMethod with
        ⟨e, hc⟩ | ⟨c1, hc, hproofs, hbbs, hnot⟩
      · rw [hc] at h; cases h
      · rw [hc] at h
        injection h with h
        exact ⟨c, o1, c1, hparse, hval, h.symm, hproofs, hbbs, hnot⟩

/-- Claim C7: every successful Prove returns a presentation whose holder
is `proofOptions.controller` and whose attached linked-data proof has
purpose "authentication"; every proof attached by Issue has purpose
"assertionMethod". -/
theorem c7_holder_and_proof_purpose :
    (∀ (ctx : WalletCtx) (st : ContentStore) (tok : String) (po : ProofOptions)
      (creds : ProveOpts) (p : Presentation),
      Prove ctx st tok (some po) creds = .ok p →
      p.holder = po.controller ∧
      ∃ pf, p.proofs.getLast? = some pf ∧ pf.proofPurpose = "authentication") ∧
    (∀ (ctx : WalletCtx) (st : ContentStore) (tok : String) (raw : RawMessage)
      (po : Option ProofOptions) (vc : Credential),
      (Issue ctx st tok raw po).1 = .ok vc →
      ∃ pf, vc.proofs.getLast? = some pf ∧ pf.proofPurpose = "assertionMethod") := by
  constructor
  · intro ctx st tok po creds p h
    obtain ⟨p0, o1, hres, hval, hp⟩ := Prove_ok_characterization h
    obtain ⟨hct, -, -⟩ := validateProofOption_ok_fields hval
    subst hp
    refine ⟨hct, mkProof (signingContext o1 .authentication), ?_, rfl⟩
    exact getLast?_append_singleton _ _
  · intro ctx st tok raw po vc h
    obtain ⟨c, o1, c1, hparse, hval, hvc, -, -, -⟩ := Issue_ok_characterization h
    subst hvc
    refine ⟨mkProof (signingContext o1 .assertionMethod), ?_, rfl⟩
    exact getLast?_append_singleton _ _

def credEx : Credential :=
  { context := [credentialsBaseContext]
    id := "http://ex/cred/1"
    proofs := []
    proofValid := true }

def proveOptsEx : ProofOptions := { controller := "did:ex:alice" }

def proveResEx : Presentation :=
  { context := [credentialsBaseContext]
    holder := "did:ex:alice"
    credentials := []
    proofs := [{ proofType := Ed25519Signature2018
                 proofPurpose := "authentication"
                 verificationMethod := "did:ex:alice#k1"
                 representation := .jws }]
    proofValid := true }

def issueResEx : Credential :=
  { credEx with
    proofs := [{ proofType := Ed25519Signature2018
                 proofPurpose := "assertionMethod"
                 verificationMethod := "did:ex:alice#k1"
                 representation := .jws }] }

/-- Witness for C7: a concrete Prove and a concrete Issue run. -/
theorem c7_witness :
    (proveResEx.holder = proveOptsEx.controller ∧
      ∃ pf, proveResEx.proofs.getLast? = some pf ∧ pf.proofPurpose = "authentication") ∧
    (∃ pf, issueResEx.proofs.getLast? = some pf ∧ pf.proofPurpose = "assertionMethod") :=
  ⟨c7_holder_and_proof_purpose.1 walletCtxEx [] "tok" proveOptsEx {} proveResEx (by rfl),
   c7_holder_and_proof_purpose.2 walletCtxEx [] "tok" { cred := some credEx }
     (some proveOptsEx) issueResEx (by rfl)⟩

def bbsOptsEx : ProofOptions :=
  { controller := "did:ex:alice", proofType := BbsBlsSignature2020 }

def c2CexPres : Presentation :=
  { context := [credentialsBaseContext]
    holder := "did:ex:alice"
    credentials := []
    proofs := [{ proofType := BbsBlsSignature2020
                 proofPurpose := "authentication"
                 verificationMethod := "did:ex:alice#k1"
                 representation := .jws }]
    proofValid := true }

/-- Counterexample for C2: a BBS Prove call on a presentation whose
context lacks the BBS URI returns a presentation that still lacks it
(count 0, not "exactly once") — `addContext` only acts on credentials,
so presentation targets never receive the context. -/
theorem c2_counterexample :
    Prove walletCtxEx [] "tok" (some bbsOptsEx) {} = .ok c2CexPres ∧
    c2CexPres.context.count bbsContext = 0 := ⟨by rfl, by decide⟩

/-- Claim C2 (amended): for BBS Issue the output credential's context
counts the BBS URI exactly once whenever the input counted it at most
once; for Prove the presentation's context is returned unchanged (the
injection is a no-op on presentations). -/
theorem c2_bbs_context_injection :
    (∀ (ctx : WalletCtx) (st : ContentStore) (tok : String) (raw : RawMessage)
       (po : ProofOptions) (c vc : Credential),
       parseCredential raw true = .ok c →
       c.context.count bbsContext ≤ 1 →
       po.proofType = BbsBlsSignature2020 →
       (Issue ctx st tok raw (some po)).1 = .ok vc →
       vc.context.count bbsContext = 1) ∧
    (∀ (ctx : WalletCtx) (st : ContentStore) (tok : String) (po : ProofOptions)
       (creds : ProveOpts) (p p0 : Presentation),
       resolveOptionsToPresent st creds = .ok p0 →
       Prove ctx st tok (some po) creds = .ok p →
       p.context = p0.context) := by
  constructor
  · intro ctx st tok raw po c vc hparse hcount hbbs h
    obtain ⟨c', o1, c1, hparse', hval, hvc, -, hbbs1, -⟩ := Issue_ok_characterization h
    rw [hparse] at hparse'
    injection hparse' with hc
    subst hc
    have hpt : o1.proofType = BbsBlsSignature2020 := by
      rw [(validateProofOption_ok_fields hval).2.1, hbbs, if_neg (by decide)]
    have hctxeq := hbbs1 hpt
    have hvcctx : vc.context = c1.context := by rw [hvc]
    by_cases hmem : bbsContext ∈ c.context
    · have : Provable.credential c1 = Provable.credential c := by
        rw [hctxeq]; simp [addContext, hmem]
      injection this with h1
      subst h1
      rw [hvcctx]
      exact Nat.le_antisymm hcount (List.count_pos_iff.mpr hmem)
    · have : Provable.credential c1 =
          Provable.credential { c with context := c.context ++ [bbsContext] } := by
        rw [hctxeq]; simp [addContext, hmem]
      injection this with h1
      subst h1
      rw [hvcctx]
      simp [List.count_append, List.count_eq_zero.mpr hmem]
  · intro ctx st tok po creds p p0 hres h
    obtain ⟨p0', o1, hres', hval, hp⟩ := Prove_ok_characterization h
    rw [hres] at hres'
    injection hres' with hp0
    subst hp0
    rw [hp]

def c2IssueResEx : Credential :=
  { context := [credentialsBaseContext, bbsContext]
    id := "http://ex/cred/1"
    proofs := [{ proofType := BbsBlsSignature2020
                 proofPurpose := "assertionMethod"
                 verificationMethod := "did:ex:alice#k1"
                 representation := .jws }]
    proofValid := true }

def basePresEx : Presentation :=
  { context := [credentialsBaseContext]
    holder := ""
    credentials := []
    proofs := []
    proofValid := true }

/-- Witness for C2 (amended) at a concrete BBS Issue and Prove run. -/
theorem c2_witness :
    c2IssueResEx.context.count bbsContext = 1 ∧
    c2CexPres.context = basePresEx.context :=
  ⟨c2_bbs_context_injection.1 walletCtxEx [] "tok" { cred := some credEx }
      bbsOptsEx credEx c2IssueResEx (by rfl) (by decide) (by rfl) (by rfl),
   c2_bbs_context_injection.2 walletCtxEx [] "tok" bbsOptsEx {} c2CexPres
      basePresEx (by rfl) (by rfl)⟩

theorem addLinkedDataProof_unsupported {ctx : WalletCtx} {tok : String}
    {p : Provable} {opts : ProofOptions} {rel : VerificationRelationship}
    (hk : ctx.kms tok opts = .ok ())
    (h1 : ¬opts.proofType = Ed25519Signature2018)
    (h2 : ¬opts.proofType = JSONWebSignature2020)
    (h3 : ¬opts.proofType = BbsBlsSignature2020) :
    addLinkedDataProof ctx tok p opts rel =
      (some ("unsupported signature type " ++ opts.proofType), p) := by
  simp only [addLinkedDataProof, hk]
  rw [if_neg h1, if_neg h2, if_neg h3]

/-- Claim C5: a proof type that is none of the three supported suites
makes the signing step fail with an unsupported-signature-type error and
attach no proof; Issue and Prove surface that error (a non-empty proof
type survives validation unchanged). -/
theorem c5_unsupported_proof_type :
    (∀ (ctx : WalletCtx) (tok : String) (p : Provable) (opts : ProofOptions)
       (rel : VerificationRelationship),
       ctx.kms tok opts = .ok () →
       ¬opts.proofType = Ed25519Signature2018 →
       ¬opts.proofType = JSONWebSignature2020 →
       ¬opts.proofType = BbsBlsSignature2020 →
       addLinkedDataProof ctx tok p opts rel =
         (some ("unsupported signature type " ++ opts.proofType), p)) ∧
    (∀ (ctx : WalletCtx) (st : ContentStore) (tok : String) (raw : RawMessage)
       (po : ProofOptions) (c : Credential) (o1 : ProofOptions),
       ¬po.proofType = "" →
       ¬po.proofType = Ed25519Signature2018 →
       ¬po.proofType = JSONWebSignature2020 →
       ¬po.proofType = BbsBlsSignature2020 →
       parseCredential raw true = .ok c →
       validateProofOption (walletVDRResolve ctx st) (some po) .assertionMethod = .ok o1 →
       ctx.kms tok o1 = .ok () →
       (Issue ctx st tok raw (some po)).1 =
         .error ("failed to issue credential: " ++
           ("unsupported signature type " ++ po.proofType))) ∧
    (∀ (ctx : WalletCtx) (st : ContentStore) (tok : String) (po : ProofOptions)
       (creds : ProveOpts) (p0 : Presentation) (o1 : ProofOptions),
       ¬po.proofType = "" →
       ¬po.proofType = Ed25519Signature2018 →
       ¬po.proofType = JSONWebSignature2020 →
       ¬po.proofType = BbsBlsSignature2020 →
       resolveOptionsToPresent st creds = .ok p0 →
       validateProofOption (walletVDRResolve ctx st) (some po) .authentication = .ok o1 →
       ctx.kms tok o1 = .ok () →
       Prove ctx st tok (some po) creds =
         .error ("failed to prove credentials: " ++
           ("unsupported signature type " ++ po.proofType))) := by
  refine ⟨fun ctx tok p opts rel hk h1 h2 h3 =>
    addLinkedDataProof_unsupported hk h1 h2 h3, ?_, ?_⟩
  · intro ctx st tok raw po c o1 hne h1 h2 h3 hparse hval hk
    have hpt : o1.proofType = po.proofType := by
      rw [(validateProofOption_ok_fields hval).2.1, if_neg hne]
    simp only [Issue, hparse, hval]
    rw [addLinkedDataProof_unsupported hk (by rw [hpt]; exact h1)
      (by rw [hpt]; exact h2) (by rw [hpt]; exact h3), hpt]
  · intro ctx st tok po creds p0 o1 hne h1 h2 h3 hres hval hk
    have hpt : o1.proofType = po.proofType := by
      rw [(validateProofOption_ok_fields hval).2.1, if_neg hne]
    simp only [Prove, hres, hval]
    rw [addLinkedDataProof_unsupported hk (by rw [hpt]; exact h1)
      (by rw [hpt]; exact h2) (by rw [hpt]; exact h3), hpt]

def rsaOptsEx : ProofOptions :=
  { controller := "did:ex:alice", proofType := "RsaSignature2018" }

def rsaOptsVal : ProofOptions :=
  { controller := "did:ex:alice"
    verificationMethod := "did:ex:alice#k1"
    proofType := "RsaSignature2018"
    proofRepresentation := some .jws }

/-- Witness for C5: a concrete Issue and Prove call with proof type
RsaSignature2018 fail with the unsupported-signature-type error. -/
theorem c5_witness :
    addLinkedDataProof walletCtxEx "tok" (.credential credEx) rsaOptsVal .assertionMethod =
      (some ("unsupported signature type " ++ rsaOptsVal.proofType), .credential credEx) ∧
    (Issue walletCtxEx [] "tok" { cred := some credEx } (some rsaOptsEx)).1 =
      .error ("failed to issue credential: " ++
        ("unsupported signature type " ++ rsaOptsEx.proofType)) ∧
    Prove walletCtxEx [] "tok" (some rsaOptsEx) {} =
      .error ("failed to prove credentials: " ++
        ("unsupported signature type " ++ rsaOptsEx.proofType)) :=
  ⟨c5_unsupported_proof_type.1 walletCtxEx "tok" (.credential credEx) rsaOptsVal
     .assertionMethod (by rfl) (by decide) (by decide) (by decide),
   c5_unsupported_proof_type.2.1 walletCtxEx [] "tok" { cred := some credEx }
     rsaOptsEx credEx rsaOptsVal (by decide) (by decide) (by decide) (by decide)
     (by rfl) (by rfl) (by rfl),
   c5_unsupported_proof_type.2.2 walletCtxEx [] "tok" rsaOptsEx {} basePresEx
     rsaOptsVal (by decide) (by decide) (by decide) (by decide)
     (by rfl) (by rfl) (by rfl)⟩

/-- Claim C9: `Issue` never writes to the content store — the store
component it returns is the store it was given, on success and on every
failure path. -/
theorem c9_issue_no_store_writes :
    ∀ (ctx : WalletCtx) (st : ContentStore) (tok : String) (raw : RawMessage)
      (po : Option ProofOptions), (Issue ctx st tok raw po).2 = st := by
  intro ctx st tok raw po
  simp only [Issue]
  split
  · rfl
  · split
    · rfl
    · split <;> rfl

/-- Claim C10: a Verify call that supplies none of the three input forms
fails with "invalid verify request", with no content-store read and no
resolver use. -/
theorem c10_verify_invalid_request :
    ∀ (st : ContentStore) (o : VerifyOpts),
      o.credentialID = "" → o.rawCredential = none → o.rawPresentation = none →
      Verify st o = ((false, some "invalid verify request"), []) := by
  intro st o h1 h2 h3
  simp [Verify, h1, h2, h3]

/-- Witness for C10: the empty verification option bag. -/
theorem c10_witness :
    Verify [] {} = ((false, some "invalid verify request"), []) :=
  c10_verify_invalid_request [] {} rfl rfl rfl

theorem verifyCredential_valid (c : Credential) (h : c.proofValid = true) :
    verifyCredential (marshalCredential c) = (true, none) := by
  simp [verifyCredential, marshalCredential, parseCredential, h]

theorem verifyCredential_invalid (c : Credential) (h : c.proofValid = false) :
    verifyCredential (marshalCredential c) =
      (false, some ("credential verification failed: " ++ "proof check failed")) := by
  simp [verifyCredential, marshalCredential, parseCredential, h]

theorem verifyPresLoop_true_iff (cs : List Credential) :
    (verifyPresLoop cs).1 = true ↔ ∀ c ∈ cs, c.proofValid = true := by
  induction cs with
  | nil => simp [verifyPresLoop]
  | cons c rest ih =>
    cases hv : c.proofValid
    · simp [verifyPresLoop, verifyCredential_invalid c hv, hv]
    · simp [verifyPresLoop, verifyCredential_valid c hv, ih, hv]

theorem verifyPresLoop_none_iff (cs : List Credential) :
    (verifyPresLoop cs).2 = none ↔ (verifyPresLoop cs).1 = true := by
  induction cs with
  | nil => simp [verifyPresLoop]
  | cons c rest ih =>
    cases hv : c.proofValid
    · simp [verifyPresLoop, verifyCredential_invalid c hv]
    · simp [verifyPresLoop, verifyCredential_valid c hv, ih]

theorem verifyPresLoop_shortCircuit (bad : Credential)
    (hbad : bad.proofValid = false) (cs2 : List Credential) :
    ∀ cs1 : List Credential, (∀ c ∈ cs1, c.proofValid = true) →
      verifyPresLoop (cs1 ++ bad :: cs2) = verifyPresLoop (cs1 ++ [bad]) ∧
      (verifyPresLoop (cs1 ++ bad :: cs2)).1 = false := by
  intro cs1
  induction cs1 with
  | nil =>
    intro _
    constructor <;> simp [verifyPresLoop, verifyCredential_invalid bad hbad]
  | cons c rest ih =>
    intro h
    have hc : c.proofValid = true := h c (by simp)
    have hrest : ∀ x ∈ rest, x.proofValid = true := fun x hx => h x (by simp [hx])
    constructor
    · simp only [List.cons_append, verifyPresLoop, verifyCredential_valid c hc]
      exact (ih hrest).1
    · simp only [List.cons_append, verifyPresLoop, verifyCredential_valid c hc]
      exact (ih hrest).2

/-- Claim C4: verifying a presentation parses and proof-checks the
presentation itself and then each embedded credential in turn,
short-circuiting on the first failure; both verification operations
return (false, detail) on any parse or proof failure and (true, nil)
exactly when every proof checks out. -/
theorem c4_verify_semantics :
    (∀ raw : RawMessage,
      ((verifyPresentation raw).1 = true ↔
        ∃ vp, raw.pres = some vp ∧ vp.proofValid = true ∧
          ∀ c ∈ vp.credentials, c.proofValid = true)) ∧
    (∀ raw : RawMessage,
      ((verifyPresentation raw).2 = none ↔ (verifyPresentation raw).1 = true)) ∧
    (∀ raw : RawMessage,
      ((verifyCredential raw).2 = none ↔ (verifyCredential raw).1 = true) ∧
      ((verifyCredential raw).1 = true ↔
        ∃ c, raw.cred = some c ∧ c.proofValid = true)) ∧
    (∀ (cs1 cs2 : List Credential) (bad : Credential),
      (∀ c ∈ cs1, c.proofValid = true) → bad.proofValid = false →
      verifyPresLoop (cs1 ++ bad :: cs2) = verifyPresLoop (cs1 ++ [bad]) ∧
      (verifyPresLoop (cs1 ++ bad :: cs2)).1 = false) := by
  refine ⟨?_, ?_, ?_, fun cs1 cs2 bad h hbad => verifyPresLoop_shortCircuit bad hbad cs2 cs1 h⟩
  · intro raw
    cases hp : raw.pres with
    | none => simp [verifyPresentation, parsePresentation, hp]
    | some vp =>
      cases hv : vp.proofValid
      · simp [verifyPresentation, parsePresentation, hp, hv]
      · simp [verifyPresentation, parsePresentation, hp, hv, verifyPresLoop_true_iff]
  · intro raw
    cases hp : raw.pres with
    | none => simp [verifyPresentation, parsePresentation, hp]
    | some vp =>
      cases hv : vp.proofValid
      · simp [verifyPresentation, parsePresentation, hp, hv]
      · simp [verifyPresentation, parsePresentation, hp, hv, verifyPresLoop_none_iff,
          verifyPresLoop_true_iff]
  · intro raw
    cases hc : raw.cred with
    | none => simp [verifyCredential, parseCredential, hc]
    | some c =>
      cases hv : c.proofValid
      · simp [verifyCredential, parseCredential, hc, hv]
      · simp [verifyCredential, parseCredential, hc, hv]

def goodCredEx : Credential :=
  { context := [credentialsBaseContext], id := "http://ex/good", proofs := [], proofValid := true }

def badCredEx : Credential :=
  { context := [credentialsBaseContext], id := "http://ex/bad", proofs := [], proofValid := false }

def presRawEx : RawMessage :=
  { pres := some { context := [credentialsBaseContext]
                   holder := ""
                   credentials := [goodCredEx, badCredEx]
                   proofs := []
                   proofValid := true } }

/-- Witness for C4: a concrete presentation with one tampered credential
and a concrete short-circuit instance. -/
theorem c4_witness :
    ((verifyPresentation presRawEx).1 = true ↔
      ∃ vp, presRawEx.pres = some vp ∧ vp.proofValid = true ∧
        ∀ c ∈ vp.credentials, c.proofValid = true) ∧
    (verifyPresLoop ([goodCredEx] ++ badCredEx :: [goodCredEx]) =
        verifyPresLoop ([goodCredEx] ++ [badCredEx]) ∧
      (verifyPresLoop ([goodCredEx] ++ badCredEx :: [goodCredEx])).1 = false) :=
  ⟨c4_verify_semantics.1 presRawEx,
   c4_verify_semantics.2.2.2 [goodCredEx] [goodCredEx] badCredEx
     (by decide) (by decide)⟩

theorem resolveStored_ok_of_wf (st : ContentStore) :
    ∀ ids : List String,
      (∀ id ∈ ids, ∃ raw c, lookupContent st .credential id = some raw ∧
        raw.cred = some c) →
      ∃ cs, resolveStored st ids = .ok cs := by
  intro ids
  induction ids with
  | nil => intro _; exact ⟨[], rfl⟩
  | cons id rest ih =>
    intro h
    obtain ⟨raw, c, hl, hc⟩ := h id (by simp)
    obtain ⟨cs, hcs⟩ := ih (fun i hi => h i (by simp [hi]))
    exact ⟨c :: cs, by simp [resolveStored, contentsGet, hl, parseCredential, hc, hcs]⟩

theorem resolveRaw_ok_of_wf :
    ∀ raws : List RawMessage,
      (∀ raw ∈ raws, ∃ c, raw.cred = some c) →
      ∃ cs, resolveRaw raws = .ok cs := by
  intro raws
  induction raws with
  | nil => intro _; exact ⟨[], rfl⟩
  | cons raw rest ih =>
    intro h
    obtain ⟨c, hc⟩ := h raw (by simp)
    obtain ⟨cs, hcs⟩ := ih (fun r hr => h r (by simp [hr]))
    exact ⟨c :: cs, by simp [resolveRaw, parseCredential, hc, hcs]⟩

theorem resolveStored_mem (st : ContentStore) :
    ∀ (ids : List String) (cs : List Credential),
      resolveStored st ids = .ok cs →
      ∀ (id : String) (raw : RawMessage) (c : Credential),
        id ∈ ids → lookupContent st .credential id = some raw →
        raw.cred = some c → c ∈ cs := by
  intro ids
  induction ids with
  | nil => intro cs h id raw c hid; simp at hid
  | cons id0 rest ih =>
    intro cs h id raw c hid hl hc
    simp only [resolveStored] at h
    split at h
    · cases h
    · rename_i raw0 hget
      split at h
      · cases h
      · rename_i c0 hparse
        split at h
        · cases h
        · rename_i cs0 hrest
          injection h with h
          subst h
          rcases List.mem_cons.mp hid with rfl | hid1
          · have hr0 : raw0 = raw := by
              simp only [contentsGet, hl] at hget
              injection hget with hget
              exact hget.symm
            subst hr0
            simp only [parseCredential, hc] at hparse
            injection hparse with hparse
            simp [hparse]
          · exact List.mem_cons_of_mem _ (ih cs0 hrest id raw c hid1 hl hc)

theorem resolveRaw_mem :
    ∀ (raws : List RawMessage) (cs : List Credential),
      resolveRaw raws = .ok cs →
      ∀ (raw : RawMessage) (c : Credential),
        raw ∈ raws → raw.cred = some c → c ∈ cs := by
  intro raws
  induction raws with
  | nil => intro cs h raw c hr; simp at hr
  | cons raw0 rest ih =>
    intro cs h raw c hr hc
    simp only [resolveRaw] at h
    split at h
    · cases h
    · rename_i c0 hparse
      split at h
      · cases h
      · rename_i cs0 hrest
        injection h with h
        subst h
        rcases List.mem_cons.mp hr with rfl | hr1
        · simp only [parseCredential, hc] at hparse
          injection hparse with hparse
          simp [hparse]
        · exact List.mem_cons_of_mem _ (ih cs0 hrest raw c hr1 hc)

/-- The credential list a successful resolution returns: the (possibly
empty) base presentation's credentials followed by the three credential
sources. -/
theorem resolveOptionsToPresent_ok {st : ContentStore} {po : ProveOpts}
    {p : Presentation} (h : resolveOptionsToPresent st po = .ok p) :
    ∃ cs1 cs2, resolveStored st po.storedCredentials = .ok cs1 ∧
      resolveRaw po.rawCredentials = .ok cs2 ∧
      ((∃ pr, po.presentation = some pr ∧
          p.credentials = pr.credentials ++ (cs1 ++ cs2 ++ po.credentials)) ∨
       (po.presentation = none ∧ p.credentials = cs1 ++ cs2 ++ po.credentials)) := by
  simp only [resolveOptionsToPresent] at h
  split at h
  · cases h
  · rename_i cs1 h1
    split at h
    · cases h
    · rename_i cs2 h2
      refine ⟨cs1, cs2, h1, h2, ?_⟩
      split at h
      · rename_i pr hpr
        injection h with h
        exact Or.inl ⟨pr, hpr, by rw [← h]; rfl⟩
      · rename_i hpr
        simp only [newPresentation] at h
        injection h with h
        exact Or.inr ⟨hpr, by rw [← h]⟩

theorem addLinkedDataProof_presentation_supported {ctx : WalletCtx}
    {tok : String} {pr : Presentation} {opts : ProofOptions}
    {rel : VerificationRelationship}
    (hk : ctx.kms tok opts = .ok ())
    (hsup : opts.proofType = Ed25519Signature2018 ∨
      opts.proofType = JSONWebSignature2020 ∨
      opts.proofType = BbsBlsSignature2020) :
    addLinkedDataProof ctx tok (.presentation pr) opts rel =
      (none, .presentation
        { pr with proofs := pr.proofs ++ [mkProof (signingContext opts rel)] }) := by
  simp only [addLinkedDataProof, hk]
  rcases hsup with h | h | h
  · rw [if_pos h]; simp [attachProof]
  · rw [if_neg (by rw [h]; decide), if_pos h]; simp [attachProof]
  · rw [if_neg (by rw [h]; decide), if_neg (by rw [h]; decide), if_pos h]
    simp [attachProof, addContext]

/-- Claim C3: Prove resolves all its input forms with proof checking
disabled — well-formedness alone makes resolution succeed, a credential
with an invalid proof is still included, and Prove itself succeeds
whenever resolution, option validation and signing succeed, regardless
of the constituent proofs. -/
theorem c3_prove_disabled_proof_check :
    (∀ (raw : RawMessage) (c : Credential),
      raw.cred = some c → parseCredential raw true = .ok c) ∧
    (∀ (st : ContentStore) (po : ProveOpts),
      (∀ id ∈ po.storedCredentials,
        ∃ raw c, lookupContent st .credential id = some raw ∧ raw.cred = some c) →
      (∀ raw ∈ po.rawCredentials, ∃ c, raw.cred = some c) →
      ∃ p, resolveOptionsToPresent st po = .ok p) ∧
    (∀ (st : ContentStore) (po : ProveOpts) (p : Presentation),
      resolveOptionsToPresent st po = .ok p →
      (∀ c ∈ po.credentials, c ∈ p.credentials) ∧
      (∀ (id : String) (raw : RawMessage) (c : Credential),
        id ∈ po.storedCredentials → lookupContent st .credential id = some raw →
        raw.cred = some c → c ∈ p.credentials) ∧
      (∀ (raw : RawMessage) (c : Credential),
        raw ∈ po.rawCredentials → raw.cred = some c → c ∈ p.credentials) ∧
      (∀ pr, po.presentation = some pr → ∀ c ∈ pr.credentials, c ∈ p.credentials)) ∧
    (∀ (ctx : WalletCtx) (st : ContentStore) (tok : String)
      (po : Option ProofOptions) (creds : ProveOpts) (p0 : Presentation)
      (o1 : ProofOptions),
      resolveOptionsToPresent st creds = .ok p0 →
      validateProofOption (walletVDRResolve ctx st) po .authentication = .ok o1 →
      ctx.kms tok o1 = .ok () →
      (o1.proofType = Ed25519Signature2018 ∨
        o1.proofType = JSONWebSignature2020 ∨
        o1.proofType = BbsBlsSignature2020) →
      ∃ p, Prove ctx st tok po creds = .ok p) := by
  refine ⟨?_, ?_, ?_, ?_⟩
  · intro raw c hc
    simp [parseCredential, hc]
  · intro st po hstored hraw
    obtain ⟨cs1, h1⟩ := resolveStored_ok_of_wf st po.storedCredentials hstored
    obtain ⟨cs2, h2⟩ := resolveRaw_ok_of_wf po.rawCredentials hraw
    cases hpr : po.presentation with
    | some pr =>
      exact ⟨addCredentials pr (cs1 ++ cs2 ++ po.credentials),
        by simp [resolveOptionsToPresent, h1, h2, hpr]⟩
    | none =>
      exact ⟨{ context := [credentialsBaseContext]
               holder := ""
               credentials := cs1 ++ cs2 ++ po.credentials
               proofs := []
               proofValid := true },
        by simp [resolveOptionsToPresent, h1, h2, hpr, newPresentation]⟩
  · intro st po p h
    obtain ⟨cs1, cs2, h1, h2, hcred⟩ := resolveOptionsToPresent_ok h
    have hcs : ∀ c : Credential, c ∈ cs1 ++ cs2 ++ po.credentials → c ∈ p.credentials := by
      intro c hc
      rcases hcred with ⟨pr, -, hpc⟩ | ⟨-, hpc⟩
      · rw [hpc]; exact List.mem_append_right _ hc
      · rw [hpc]; exact hc
    refine ⟨?_, ?_, ?_, ?_⟩
    · intro c hc
      exact hcs c (by simp [hc])
    · intro id raw c hid hl hc
      exact hcs c (by simp [resolveStored_mem st _ cs1 h1 id raw c hid hl hc])
    · intro raw c hr hc
      exact hcs c (by simp [resolveRaw_mem _ cs2 h2 raw c hr hc])
    · intro pr hpr c hc
      rcases hcred with ⟨pr1, hpr1, hpc⟩ | ⟨hpr1, -⟩
      · rw [hpr] at hpr1
        injection hpr1 with hpr1
        rw [hpc, ← hpr1]
        exact List.mem_append_left _ hc
      · rw [hpr] at hpr1; cases hpr1
  · intro ctx st tok po creds p0 o1 hres hval hk hsup
    refine ⟨{ p0 with
              holder := o1.controller
              proofs := p0.proofs ++ [mkProof (signingContext o1 .authentication)] }, ?_⟩
    simp only [Prove, hres, hval]
    rw [addLinkedDataProof_presentation_supported hk hsup]

def invalidCredEx : Credential :=
  { context := [credentialsBaseContext]
    id := "http://ex/cred/bad"
    proofs := [{ proofType := Ed25519Signature2018
                 proofPurpose := "assertionMethod"
                 verificationMethod := "did:ex:alice#k1"
                 representation := .jws }]
    proofValid := false }

def storeEx : ContentStore :=
  [((.credential, "http://ex/cred/bad"), { cred := some invalidCredEx })]

def storedProveOptsEx : ProveOpts := { storedCredentials := ["http://ex/cred/bad"] }

def c3ResolvedPresEx : Presentation :=
  { context := [credentialsBaseContext]
    holder := ""
    credentials := [invalidCredEx]
    proofs := []
    proofValid := true }

/-- Witness for C3: a stored credential whose proof fails verification is
still resolved, included, and presented by a successful Prove. -/
theorem c3_witness :
    parseCredential { cred := some invalidCredEx } true = .ok invalidCredEx ∧
    (∃ p, resolveOptionsToPresent storeEx storedProveOptsEx = .ok p) ∧
    invalidCredEx ∈ c3ResolvedPresEx.credentials ∧
    (∃ p, Prove walletCtxEx storeEx "tok" (some proveOptsEx) storedProveOptsEx = .ok p) :=
  ⟨c3_prove_disabled_proof_check.1 { cred := some invalidCredEx } invalidCredEx rfl,
   c3_prove_disabled_proof_check.2.1 storeEx storedProveOptsEx
     (by intro id hid
         simp [storedProveOptsEx] at hid
         subst hid
         exact ⟨{ cred := some invalidCredEx }, invalidCredEx, rfl, rfl⟩)
     (by intro raw hr; simp [storedProveOptsEx] at hr),
   (c3_prove_disabled_proof_check.2.2.1 storeEx storedProveOptsEx c3ResolvedPresEx
     (by rfl)).2.1 "http://ex/cred/bad" { cred := some invalidCredEx } invalidCredEx
     (by decide) (by rfl) rfl,
   c3_prove_disabled_proof_check.2.2.2 walletCtxEx storeEx "tok" (some proveOptsEx)
     storedProveOptsEx c3ResolvedPresEx
     { proveOptsEx with
       verificationMethod := "did:ex:alice#k1"
       proofType := Ed25519Signature2018
       proofRepresentation := some .jws }
     (by rfl) (by rfl) (by rfl) (Or.inl rfl)⟩

theorem countP_eq_zero_of_lookup_none :
    ∀ (st : ProfileStore) (uid : String), List.lookup uid st = none →
      st.countP (fun kv => decide (kv.1 = uid)) = 0 := by
  intro st uid
  induction st with
  | nil => intro _; rfl
  | cons kv rest ih =>
    obtain ⟨k, v⟩ := kv
    intro h
    by_cases hk : uid = k
    · simp [List.lookup, hk] at h
    · simp only [List.lookup] at h
      rw [show (uid == k) = false by simp [hk]] at h
      have hk1 : ¬k = uid := fun hkk => hk hkk.symm
      simp [List.countP_cons, ih h, hk1]

theorem countP_map_replace (st : ProfileStore) (uid : String) (p : WProfile) :
    (st.map (fun kv => if kv.1 = uid then (uid, p) else kv)).countP
        (fun kv => decide (kv.1 = uid))
      = st.countP (fun kv => decide (kv.1 = uid)) := by
  induction st with
  | nil => rfl
  | cons kv rest ih =>
    obtain ⟨k, v⟩ := kv
    by_cases hk : k = uid <;> simp [List.countP_cons, hk, ih]

theorem lookup_append_of_none {st : ProfileStore} {uid : String}
    (h : List.lookup uid st = none) (st2 : ProfileStore) :
    List.lookup uid (st ++ st2) = List.lookup uid st2 := by
  induction st with
  | nil => rfl
  | cons kv rest ih =>
    obtain ⟨k, v⟩ := kv
    by_cases hk : uid = k
    · simp [List.lookup, hk] at h
    · simp only [List.lookup] at h ⊢
      rw [show (uid == k) = false by simp [hk]] at h ⊢
      exact ih h

/-- Claim C8: CreateProfile on an existing userID fails with
AlreadyExists and writes nothing; UpdateProfile on a missing userID
fails with NotFound and creates nothing; CreateProfile on a fresh
userID and UpdateProfile on an existing one each leave exactly one
profile record for that userID. -/
theorem c8_profile_create_update :
    (∀ (st : ProfileStore) (uid : String) (o : KMSOpts) (p : WProfile),
      List.lookup uid st = some p → validBinding o = true →
      CreateProfile st uid o =
        .error ("failed to save VC wallet profile: " ++ "AlreadyExists")) ∧
    (∀ (st : ProfileStore) (uid : String) (o : KMSOpts),
      List.lookup uid st = none →
      UpdateProfile st uid o =
        .error ("failed to update wallet user profile: " ++ "NotFound")) ∧
    (∀ (st : ProfileStore) (uid : String) (o : KMSOpts),
      List.lookup uid st = none → validBinding o = true →
      ∃ st1, CreateProfile st uid o = .ok st1 ∧
        st1.countP (fun kv => decide (kv.1 = uid)) = 1 ∧
        List.lookup uid st1 = some { userID := uid
                                     passphrase := o.passphrase
                                     secretLockSvc := o.secretLockSvc
                                     keyServerURL := o.keyServerURL }) ∧
    (∀ (st : ProfileStore) (uid : String) (o : KMSOpts) (p : WProfile),
      List.lookup uid st = some p → p.userID = uid → validBinding o = true →
      st.countP (fun kv => decide (kv.1 = uid)) = 1 →
      ∃ st1, UpdateProfile st uid o = .ok st1 ∧
        st1.countP (fun kv => decide (kv.1 = uid)) = 1) := by
  refine ⟨?_, ?_, ?_, ?_⟩
  · intro st uid o p hlk hvb
    simp [CreateProfile, createOrUpdate, createProfile, hvb, profileSave, hlk]
  · intro st uid o hlk
    simp [UpdateProfile, createOrUpdate, profileGet, hlk]
  · intro st uid o hlk hvb
    refine ⟨st ++ [(uid, { userID := uid
                           passphrase := o.passphrase
                           secretLockSvc := o.secretLockSvc
                           keyServerURL := o.keyServerURL })], ?_, ?_, ?_⟩
    · simp [CreateProfile, createOrUpdate, createProfile, hvb, profileSave, hlk]
    · simp [List.countP_append, countP_eq_zero_of_lookup_none st uid hlk,
        List.countP_cons]
    · rw [lookup_append_of_none hlk]
      simp [List.lookup]
  · intro st uid o p hlk hpid hvb hcount
    refine ⟨st.map (fun kv => if kv.1 = uid then
        (uid, { userID := uid
                passphrase := o.passphrase
                secretLockSvc := o.secretLockSvc
                keyServerURL := o.keyServerURL }) else kv), ?_, ?_⟩
    · simp [UpdateProfile, createOrUpdate, profileGet, hlk, setKMSOptions, hvb,
        profileSave, hpid]
    · rw [countP_map_replace st uid]
      exact hcount

def aliceOpts1 : KMSOpts := { passphrase := "p1" }

def aliceOpts2 : KMSOpts := { passphrase := "p2" }

def aliceProfile1 : WProfile :=
  { userID := "alice", passphrase := "p1", secretLockSvc := false, keyServerURL := "" }

def aliceStore1 : ProfileStore := [("alice", aliceProfile1)]

/-- Witness for C8: the create/re-create/update scenario on "alice". -/
theorem c8_witness :
    CreateProfile aliceStore1 "alice" aliceOpts2 =
      .error ("failed to save VC wallet profile: " ++ "AlreadyExists") ∧
    UpdateProfile [] "alice" aliceOpts2 =
      .error ("failed to update wallet user profile: " ++ "NotFound") ∧
    (∃ st1, CreateProfile [] "alice" aliceOpts1 = .ok st1 ∧
      st1.countP (fun kv => decide (kv.1 = "alice")) = 1 ∧
      List.lookup "alice" st1 = some { userID := "alice"
                                       passphrase := aliceOpts1.passphrase
                                       secretLockSvc := aliceOpts1.secretLockSvc
                                       keyServerURL := aliceOpts1.keyServerURL }) ∧
    (∃ st1, UpdateProfile aliceStore1 "alice" aliceOpts2 = .ok st1 ∧
      st1.countP (fun kv => decide (kv.1 = "alice")) = 1) :=
  ⟨c8_profile_create_update.1 aliceStore1 "alice" aliceOpts2 aliceProfile1
     (by rfl) (by decide),
   c8_profile_create_update.2.1 [] "alice" aliceOpts2 rfl,
   c8_profile_create_update.2.2.1 [] "alice" aliceOpts1 rfl (by decide),
   c8_profile_create_update.2.2.2 aliceStore1 "alice" aliceOpts2 aliceProfile1
     (by rfl) (by rfl) (by decide) (by decide)⟩

end AriesWallet
